import Mathlib

/-!
Verification development for the equity-research metrics pipeline
(`agentic/fmp_data_puller.py` and `agentic/financial_forecastor_agent.py`).

Numbers are modelled as exact rationals (`ℚ`); Python `None`-able values as
`Option`.  Python's truthiness test on a float (`if x:`) is `truthy`;
`x or 0` on a possibly-missing numeric field is `qval`.

JSON text cells stored in the sqlite cache are represented by their decode
outcome: `none` stands for a NULL or empty-string cell (falsy in Python),
`some none` for non-empty text on which `json.loads` raises, and
`some (some v)` for text decoding to `v`.  Database reads are modelled by
explicit parameters (`dbExists`, the query outcome); the cache-check
functions are pure functions of those inputs, which also reflects that they
perform no writes.
-/

/-- Python truthiness of an optional number: `None` and `0` are falsy. -/
def truthy (o : Option ℚ) : Bool :=
  match o with
  | some v => v != 0
  | none => false

/-- Python's `d.get(key, 0) or 0` on a possibly-missing numeric field. -/
def qval (o : Option ℚ) : ℚ :=
  o.getD 0

/-- Income-statement line items used by `calculate_key_metrics`
(a field is `none` when the key is missing or the value is null). -/
structure IncomeStmt where
  date : Option String
  calendarYear : Option String
  revenue : Option ℚ
  ebitda : Option ℚ
  operatingIncome : Option ℚ
  ebit : Option ℚ
  netIncome : Option ℚ
  incomeTaxExpense : Option ℚ
  interestExpense : Option ℚ
  deriving DecidableEq, Inhabited, Repr

/-- Balance-sheet line items used by `calculate_key_metrics`. -/
structure BalanceStmt where
  totalDebt : Option ℚ
  cashAndCashEquivalents : Option ℚ
  totalStockholdersEquity : Option ℚ
  totalAssets : Option ℚ
  deriving DecidableEq, Inhabited, Repr

/-- Cash-flow-statement line items used by `calculate_key_metrics`. -/
structure CashFlowStmt where
  operatingCashFlow : Option ℚ
  capitalExpenditure : Option ℚ
  deriving DecidableEq, Inhabited, Repr

/-- One fiscal year's derived metrics row, exactly the dict built at the end
of `calculate_key_metrics` (field names follow the Python keys; fields that
the code can set to `None` are `Option ℚ`). -/
structure FiscalYearMetrics where
  revenue : ℚ
  adj_ebitda : ℚ
  adj_ebit : ℚ
  adj_net_income : ℚ
  net_margin : ℚ
  adj_eps : ℚ
  cfo : ℚ
  fcff : ℚ
  revenue_growth : ℚ
  ebitda_margin : ℚ
  ebitda_growth : ℚ
  ebit_margin : ℚ
  adj_eps_growth : ℚ
  adj_tax_rate : ℚ
  interest_cover : Option ℚ
  net_debt_equity : Option ℚ
  net_debt_ebitda : Option ℚ
  roce : ℚ
  roe : ℚ
  fcff_yield : Option ℚ
  dividend_yield : Option ℚ
  ev_ebitda : Option ℚ
  ev_revenue : Option ℚ
  adj_pe : Option ℚ
  deriving DecidableEq, Inhabited, Repr

/-- Fiscal-year key of a statement: first 4 characters of the `date` field
when non-empty, else the `calendarYear` field (empty string when neither is
available — the caller then skips the year). -/
def yearKey (inc : IncomeStmt) : String :=
  let d := inc.date.getD ""
  if d ≠ "" then d.take 4 else inc.calendarYear.getD ""

/-- The per-year body of the loop in `calculate_key_metrics`
(fmp_data_puller.py lines 759-851).  `prevInc` is the income statement at
position `i+1` when `i < num_years - 1`, else `none` (growth rates stay 0). -/
def yearMetrics (inc : IncomeStmt) (bal : BalanceStmt) (cf : CashFlowStmt)
    (prevInc : Option IncomeStmt)
    (market_cap shares_outstanding current_price : Option ℚ) : FiscalYearMetrics :=
  let revenue := qval inc.revenue
  let ebitda := qval inc.ebitda
  let ebit := qval (inc.operatingIncome.orElse fun _ => inc.ebit)
  let net_income := qval inc.netIncome
  -- adjusted values: `income.get(k, 0) or fallback` collapses to the raw value
  let adj_ebitda := ebitda
  let adj_ebit := ebit
  let adj_net_income := net_income
  let cfo := qval cf.operatingCashFlow
  let capex := |qval cf.capitalExpenditure|
  let fcff := cfo - capex
  let total_debt := qval bal.totalDebt
  let cash := qval bal.cashAndCashEquivalents
  let net_debt := total_debt - cash
  let total_equity := qval bal.totalStockholdersEquity
  let total_assets := qval bal.totalAssets
  let income_tax := |qval inc.incomeTaxExpense|
  let interest_expense := |qval inc.interestExpense|
  let adj_tax_rate :=
    if adj_net_income + income_tax > 0 then income_tax / (adj_net_income + income_tax) * 100 else 0
  let net_margin := if revenue > 0 then adj_net_income / revenue * 100 else 0
  let ebitda_margin := if revenue > 0 then adj_ebitda / revenue * 100 else 0
  let ebit_margin := if revenue > 0 then adj_ebit / revenue * 100 else 0
  -- shares = shares_outstanding or (market_cap / current_price if market_cap and current_price else 0)
  let shares :=
    if truthy shares_outstanding then qval shares_outstanding
    else if truthy market_cap && truthy current_price then qval market_cap / qval current_price
    else 0
  let adj_eps := if shares > 0 then adj_net_income / shares else 0
  let growth :=
    match prevInc with
    | none => ((0 : ℚ), (0 : ℚ), (0 : ℚ))
    | some p =>
      let prev_revenue := qval p.revenue
      let prev_ebitda := qval p.ebitda
      let prev_net_income := qval p.netIncome
      let prev_eps := if shares > 0 then prev_net_income / shares else 0
      (if prev_revenue > 0 then (revenue - prev_revenue) / prev_revenue * 100 else 0,
       if prev_ebitda > 0 then (adj_ebitda - prev_ebitda) / prev_ebitda * 100 else 0,
       if prev_eps > 0 then (adj_eps - prev_eps) / prev_eps * 100 else 0)
  let interest_cover := if interest_expense > 0 then some (adj_ebit / interest_expense) else none
  let net_debt_equity := if total_equity > 0 then some (net_debt / total_equity * 100) else none
  let net_debt_ebitda := if adj_ebitda > 0 then some (net_debt / adj_ebitda) else none
  let roce := if total_assets - cash > 0 then adj_ebit / (total_assets - cash) * 100 else 0
  let roe := if total_equity > 0 then adj_net_income / total_equity * 100 else 0
  -- ev = market_cap + net_debt if market_cap else None
  let ev : Option ℚ := if truthy market_cap then some (qval market_cap + net_debt) else none
  let fcff_yield : Option ℚ :=
    match ev with
    | some e => if e ≠ 0 ∧ e > 0 then some (fcff / e * 100) else none
    | none => none
  let ev_ebitda : Option ℚ :=
    match ev with
    | some e => if e ≠ 0 ∧ adj_ebitda > 0 then some (e / adj_ebitda) else none
    | none => none
  let ev_revenue : Option ℚ :=
    match ev with
    | some e => if e ≠ 0 ∧ revenue > 0 then some (e / revenue) else none
    | none => none
  let adj_pe : Option ℚ :=
    if truthy current_price then (if adj_eps > 0 then some (qval current_price / adj_eps) else none)
    else none
  { revenue := revenue / 1000000
    adj_ebitda := adj_ebitda / 1000000
    adj_ebit := adj_ebit / 1000000
    adj_net_income := adj_net_income / 1000000
    net_margin := net_margin
    adj_eps := adj_eps
    cfo := cfo / 1000000
    fcff := fcff / 1000000
    revenue_growth := growth.1
    ebitda_margin := ebitda_margin
    ebitda_growth := growth.2.1
    ebit_margin := ebit_margin
    adj_eps_growth := growth.2.2
    adj_tax_rate := adj_tax_rate
    interest_cover := interest_cover
    net_debt_equity := net_debt_equity
    net_debt_ebitda := net_debt_ebitda
    roce := roce
    roe := roe
    fcff_yield := fcff_yield
    dividend_yield := none
    ev_ebitda := ev_ebitda
    ev_revenue := ev_revenue
    adj_pe := adj_pe }

/-- A metrics panel: the ordered `{year: FiscalYearMetrics}` dict
(insertion-ordered, as in Python). -/
def Panel : Type :=
  List (String × FiscalYearMetrics)

instance : DecidableEq Panel := by
  unfold Panel
  infer_instance

instance : Inhabited Panel :=
  ⟨([] : List (String × FiscalYearMetrics))⟩

instance : Repr Panel := by
  unfold Panel
  infer_instance

/-- First-match association-list lookup (Python `d.get(k)` / `d[k]`). -/
def lookupKey (m : Panel) (k : String) : Option FiscalYearMetrics :=
  match m with
  | [] => none
  | (k0, v0) :: rest => if k0 = k then some v0 else lookupKey rest k

/-- Python dict assignment `d[k] = v`: replace in place when the key exists,
append otherwise. -/
def dictInsert (m : Panel) (k : String) (v : FiscalYearMetrics) : Panel :=
  match m with
  | [] => [(k, v)]
  | (k0, v0) :: rest => if k0 = k then (k, v) :: rest else (k0, v0) :: dictInsert rest k v

/-- Keys of a panel, in insertion order (Python `d.keys()`). -/
def panelKeys (m : Panel) : List String :=
  m.map Prod.fst

/-- Build a dict from a list of key/value pairs by successive assignment. -/
def toDict (l : List (String × FiscalYearMetrics)) : Panel :=
  l.foldl (fun acc kv => dictInsert acc kv.1 kv.2) []

/-- Positional alignment of the three statement lists, truncating to
`min(len(income), len(balance), len(cashflow))`. -/
def alignStatements : List IncomeStmt → List BalanceStmt → List CashFlowStmt →
    List (IncomeStmt × BalanceStmt × CashFlowStmt)
  | i :: is, b :: bs, c :: cs => (i, b, c) :: alignStatements is bs cs
  | _, _, _ => []

/-- The year/metrics pairs produced by the loop of `calculate_key_metrics`,
in loop order; a position whose income statement yields an empty year key is
skipped (the Python `continue`).  The position after the current one (when it
exists) supplies the prior-year income statement for growth rates. -/
def rawEntries (mc so cp : Option ℚ) :
    List (IncomeStmt × BalanceStmt × CashFlowStmt) → List (String × FiscalYearMetrics)
  | [] => []
  | t :: rest =>
    let k := yearKey t.1
    let e := yearMetrics t.1 t.2.1 t.2.2 (rest.head?.map (·.1)) mc so cp
    if k = "" then rawEntries mc so cp rest else (k, e) :: rawEntries mc so cp rest

/-- `calculate_key_metrics` (fmp_data_puller.py lines 717-853): derive one
metrics row per aligned fiscal year, keyed by `yearKey`, most recent first. -/
def calculate_key_metrics (incs : List IncomeStmt) (bals : List BalanceStmt)
    (cfs : List CashFlowStmt) (market_cap shares_outstanding current_price : Option ℚ) : Panel :=
  toDict (rawEntries market_cap shares_outstanding current_price (alignStatements incs bals cfs))

/-- `forecast_next_fiscal_year` (fmp_data_puller.py lines 856-910): the
deterministic carry-forward fallback.  Absolute values, margins, rates and
ratios are copied from `latest`; growth fields are copied from `latest` when
previous-year metrics are available and zeroed otherwise. -/
def forecast_next_fiscal_year (latest : FiscalYearMetrics)
    (previous : Option FiscalYearMetrics) : FiscalYearMetrics :=
  { revenue := latest.revenue
    adj_ebitda := latest.adj_ebitda
    adj_ebit := latest.adj_ebit
    adj_net_income := latest.adj_net_income
    net_margin := latest.net_margin
    adj_eps := latest.adj_eps
    cfo := latest.cfo
    fcff := latest.fcff
    revenue_growth := if previous.isSome then latest.revenue_growth else 0
    ebitda_margin := latest.ebitda_margin
    ebitda_growth := if previous.isSome then latest.ebitda_growth else 0
    ebit_margin := latest.ebit_margin
    adj_eps_growth := if previous.isSome then latest.adj_eps_growth else 0
    adj_tax_rate := latest.adj_tax_rate
    interest_cover := latest.interest_cover
    net_debt_equity := latest.net_debt_equity
    net_debt_ebitda := latest.net_debt_ebitda
    roce := latest.roce
    roe := latest.roe
    fcff_yield := latest.fcff_yield
    dividend_yield := latest.dividend_yield
    ev_ebitda := latest.ev_ebitda
    ev_revenue := latest.ev_revenue
    adj_pe := latest.adj_pe }

/-- Decimal value of a digit string, most significant first. -/
def digitsToNat : List Char → Nat → Nat
  | [], acc => acc
  | c :: cs, acc => digitsToNat cs (acc * 10 + (c.toNat - 48))

/-- `int(year_string)` for the 4-digit year labels (Python raises on
non-numeric keys; the pipeline only reaches this with numeric labels,
so the 0 default is never observed). -/
def natOfYear (s : String) : Nat :=
  if s.data ≠ [] && s.data.all Char.isDigit then digitsToNat s.data 0 else 0

/-- Decimal digits of `n`, most significant first (`fuel ≥ n` suffices). -/
def natDigits : Nat → Nat → List Char
  | 0, _ => []
  | fuel + 1, n =>
    if n < 10 then [Char.ofNat (48 + n)]
    else natDigits fuel (n / 10) ++ [Char.ofNat (48 + n % 10)]

/-- `str(n)` for a fiscal-year number. -/
def yearString (n : Nat) : String :=
  ⟨natDigits (n + 1) n⟩

/-- Stable descending insertion by numeric year value. -/
def insertYearDesc (x : String) : List String → List String
  | [] => [x]
  | y :: ys => if natOfYear x < natOfYear y then y :: insertYearDesc x ys else x :: y :: ys

/-- `sorted(keys, reverse=True, key=int)`: stable sort, largest year first. -/
def sortYearsDesc : List String → List String
  | [] => []
  | x :: xs => insertYearDesc x (sortYearsDesc xs)

/-- State threaded through the loop of `generate_forecast_for_years`
(financial_forecastor_agent.py lines 496-571): `loaded` is the in-memory
`all_data['key_metrics']['metrics']` dict, `store` the metrics blob currently
persisted in the cache, `results` the dict returned to the caller, `calls`
the number of capability invocations made so far. -/
structure GenSt where
  loaded : Panel
  store : Panel
  results : Panel
  calls : Nat
  deriving DecidableEq, Repr

/-- Lines 548-552: before a fresh generation, the previous target year's
freshly-resolved forecast (when any) is patched into the in-memory metrics so
it appears in the next prompt's context. -/
def updLoaded (st : GenSt) (prevYear : Option String) : Panel :=
  match prevYear with
  | none => st.loaded
  | some p =>
    match lookupKey st.results p with
    | some v => dictInsert st.loaded p v
    | none => st.loaded

/-- One iteration of the loop of `generate_forecast_for_years` for target
year `y`.  The capability (`generate_forecast_with_openai`) is abstracted as
an oracle `cap` indexed by the number of calls made so far; `none` is a
capability failure (timeout, error, unparseable output).  Persistence
(`save_forecast_to_cache`) is modelled as always succeeding. -/
def genStep (cap : Nat → Option FiscalYearMetrics) (force : Bool) (st : GenSt)
    (prevYear : Option String) (y : String) : GenSt :=
  if !force && (lookupKey st.loaded y).isSome then
    { st with results := dictInsert st.results y ((lookupKey st.loaded y).getD default) }
  else
    let loaded1 := updLoaded st prevYear
    match cap st.calls with
    | none => { st with loaded := loaded1, calls := st.calls + 1 }
    | some f =>
      let store1 := dictInsert st.store y f
      { loaded := store1, store := store1,
        results := dictInsert st.results y f, calls := st.calls + 1 }

/-- The year loop of `generate_forecast_for_years`, carrying the previous
target year for the context-patching step. -/
def genLoop (cap : Nat → Option FiscalYearMetrics) (force : Bool) :
    List String → Option String → GenSt → GenSt
  | [], _, st => st
  | y :: ys, prev, st => genLoop cap force ys (some y) (genStep cap force st prev y)

/-- Result of `generate_forecast_for_years`: the returned dict (`none` when
no year resolved or no cached panel existed), the cache contents afterwards,
and how many capability calls were made. -/
structure GenOut where
  results : Option Panel
  cache : Option Panel
  calls : Nat
  deriving DecidableEq, Repr

/-- `generate_forecast_for_years` (financial_forecastor_agent.py lines
496-571).  `cache` is the `{ticker}_key_metrics` blob (`none` = row missing
or undecodable, which makes the call return `None` immediately).  A year
already present in the loaded metrics (with `force = false`) is accepted
as-is; otherwise the capability is invoked once, a failure skips the year
(`continue`), and a success is persisted and reloaded. -/
def generate_forecast_for_years (cap : Nat → Option FiscalYearMetrics)
    (forecast_years : List String) (force : Bool) (cache : Option Panel) : GenOut :=
  match cache with
  | none => ⟨none, none, 0⟩
  | some panel =>
    let st := genLoop cap force forecast_years none ⟨panel, panel, [], 0⟩
    ⟨if st.results = [] then none else some st.results, some st.store, st.calls⟩

/-- Outcome of the fresh-fetch path of `pull_key_metrics`: the returned
panel, the panel persisted by the first save (actual years only, line 1133;
`none` when fewer than 2 actual years were derived and nothing was saved),
the finally persisted panel, and the number of capability calls. -/
structure PullOut where
  ret : Option Panel
  firstSave : Option Panel
  store : Option Panel
  calls : Nat
  deriving DecidableEq, Repr

/-- The part of `pull_key_metrics` (fmp_data_puller.py lines 1099-1210,
fresh-fetch path with `use_openai_forecast=True`) that runs after
`calculate_key_metrics` has produced the actual-year panel `metrics`:
pick the two most recent actual years, persist them, ask
`generate_forecast_for_years` for the next two years, merge whatever it
returned, and on a fully failed forecast call fall back to
`forecast_next_fiscal_year` for both years. -/
def pull_post_core (cap : Nat → Option FiscalYearMetrics) (metrics : Panel)
    (latest previous : String) : PullOut :=
    let fy1 := yearString (natOfYear latest + 1)
    let fy2 := yearString (natOfYear latest + 2)
    let vl := (lookupKey metrics latest).getD default
    let vp := (lookupKey metrics previous).getD default
    let result0 := dictInsert (dictInsert [] previous vp) latest vl
    let gen := generate_forecast_for_years cap [fy1, fy2] false (some result0)
    match gen.results with
    | some f =>
      let r1 := match lookupKey f fy1 with
        | some v => dictInsert result0 fy1 v
        | none => result0
      let r2 := match lookupKey f fy2 with
        | some v => dictInsert r1 fy2 v
        | none => r1
      ⟨some r2, some result0, some r2, gen.calls⟩
    | none =>
      let f1 := forecast_next_fiscal_year vl (lookupKey metrics previous)
      let r1 := dictInsert result0 fy1 f1
      let f2 := forecast_next_fiscal_year ((lookupKey r1 fy1).getD vl) (some vl)
      let r2 := dictInsert r1 fy2 f2
      ⟨some r2, some result0, some r2, gen.calls⟩

/-- Dispatch of `pull_post_metrics` on the sorted actual-year labels:
fewer than 2 actual years returns the raw metrics without saving
(line 1109-1111); otherwise the two most recent actual years are processed
by `pull_post_core`. -/
def pull_post_metrics (cap : Nat → Option FiscalYearMetrics) (metrics : Panel) : PullOut :=
  match sortYearsDesc (panelKeys metrics) with
  | [] => ⟨some metrics, none, none, 0⟩
  | [_] => ⟨some metrics, none, none, 0⟩
  | latest :: previous :: _ => pull_post_core cap metrics latest previous

/-- The fresh-fetch path of `pull_key_metrics` starting from fetched
statements (an empty statement list is the "failed to fetch" case and
returns `None` with nothing persisted). -/
def pull_key_metrics_fresh (cap : Nat → Option FiscalYearMetrics)
    (incs : List IncomeStmt) (bals : List BalanceStmt) (cfs : List CashFlowStmt)
    (market_cap shares_outstanding current_price : Option ℚ) : PullOut :=
  if incs = [] ∨ bals = [] ∨ cfs = [] then ⟨none, none, none, 0⟩
  else pull_post_metrics cap
    (calculate_key_metrics incs bals cfs market_cap shares_outstanding current_price)

/-- A JSON TEXT cell, represented by its decode outcome (see the header). -/
abbrev Cell (α : Type) : Type :=
  Option (Option α)

/-- One observation of a price series. -/
structure PricePoint where
  date : String
  close : ℚ
  rebased_close : ℚ
  deriving DecidableEq, Repr

/-- The `price_performance` row selected by `check_price_performance_cache`. -/
structure PricePerfRow where
  stock_data : Cell (List PricePoint)
  index_data : Cell (List PricePoint)

/-- The decoded result returned by `check_price_performance_cache`. -/
structure PricePerfResult where
  stock_data : List PricePoint
  index_data : List PricePoint
  deriving DecidableEq, Repr

/-- `check_price_performance_cache` (fmp_data_puller.py lines 115-168):
returns the decoded series only when the database file exists, the query
succeeds, the row is present, both cells hold non-empty decodable JSON, and
both decoded lists are non-empty; every other case yields `None`. -/
def check_price_performance_cache (dbExists : Bool)
    (query : Except Unit (Option PricePerfRow)) : Option PricePerfResult :=
  if !dbExists then none
  else
    match query with
    | .error _ => none
    | .ok none => none
    | .ok (some row) =>
      match row.stock_data, row.index_data with
      | some (some sd), some (some idx) =>
        if sd ≠ [] ∧ idx ≠ [] then some ⟨sd, idx⟩ else none
      | _, _ => none

/-- The `company_data` row selected by `check_company_data_cache`, in column
order; `w52_high`/`w52_low` stand for the quoted `"52w_high"`/`"52w_low"`
columns.  `analyst_rating_counts` is a JSON TEXT cell. -/
structure CompanyRow where
  shares_outstanding : Option ℚ
  market_cap : Option ℚ
  currency : Option String
  fx_rate : Option ℚ
  free_float_pct : Option ℚ
  avg_daily_volume_3m_shares : Option ℚ
  avg_daily_volume_3m_usd : Option ℚ
  volatility_90d : Option ℚ
  w52_high : Option ℚ
  w52_low : Option ℚ
  primary_index_name : Option String
  analyst_rating_counts : Cell (List (String × ℚ))
  consensus_rating : Option String
  num_analysts : Option ℚ
  deriving DecidableEq, Repr

/-- The dict returned by `check_company_data_cache` on success. -/
structure CompanyData where
  shares_outstanding : ℚ
  market_cap : ℚ
  currency : String
  fx_rate : ℚ
  free_float_pct : ℚ
  avg_daily_volume_3m_shares : ℚ
  avg_daily_volume_3m_usd : ℚ
  volatility_90d : ℚ
  w52_high : ℚ
  w52_low : ℚ
  primary_index_name : Option String
  analyst_rating_counts : List (String × ℚ)
  consensus_rating : Option String
  num_analysts : ℚ
  deriving DecidableEq, Repr

/-- The nine required fields of `check_company_data_cache` (lines 211-224):
`fx_rate`, `primary_index_name`, `analyst_rating_counts`, `consensus_rating`
and `num_analysts` are not required. -/
def companyRequiredOk (row : CompanyRow) : Bool :=
  row.shares_outstanding.isSome && row.market_cap.isSome && row.currency.isSome &&
  row.free_float_pct.isSome && row.avg_daily_volume_3m_shares.isSome &&
  row.avg_daily_volume_3m_usd.isSome && row.volatility_90d.isSome &&
  row.w52_high.isSome && row.w52_low.isSome

/-- `check_company_data_cache` (fmp_data_puller.py lines 171-244): the row is
returned when all nine required fields are non-null; building the result dict
decodes `analyst_rating_counts` (`json.loads(result[11]) if result[11] else
{}`), and a decode failure raises inside the `try`, so it also yields `None`. -/
def check_company_data_cache (dbExists : Bool)
    (query : Except Unit (Option CompanyRow)) : Option CompanyData :=
  if !dbExists then none
  else
    match query with
    | .error _ => none
    | .ok none => none
    | .ok (some row) =>
      if companyRequiredOk row then
        match row.analyst_rating_counts with
        | some none => none
        | some (some rc) =>
          some ⟨row.shares_outstanding.getD 0, row.market_cap.getD 0, row.currency.getD "",
            if truthy row.fx_rate then row.fx_rate.getD 0 else 1, row.free_float_pct.getD 0,
            row.avg_daily_volume_3m_shares.getD 0, row.avg_daily_volume_3m_usd.getD 0,
            row.volatility_90d.getD 0, row.w52_high.getD 0, row.w52_low.getD 0,
            row.primary_index_name, rc, row.consensus_rating, qval row.num_analysts⟩
        | none =>
          some ⟨row.shares_outstanding.getD 0, row.market_cap.getD 0, row.currency.getD "",
            if truthy row.fx_rate then row.fx_rate.getD 0 else 1, row.free_float_pct.getD 0,
            row.avg_daily_volume_3m_shares.getD 0, row.avg_daily_volume_3m_usd.getD 0,
            row.volatility_90d.getD 0, row.w52_high.getD 0, row.w52_low.getD 0,
            row.primary_index_name, [], row.consensus_rating, qval row.num_analysts⟩
      else none

/-- `check_key_metrics_cache` (fmp_data_puller.py lines 913-953): returns the
decoded metrics blob when the database exists, the query succeeds, the row is
present and the cell holds non-empty decodable JSON; `None` otherwise. -/
def check_key_metrics_cache (dbExists : Bool)
    (query : Except Unit (Option (Cell Panel))) : Option Panel :=
  if !dbExists then none
  else
    match query with
    | .error _ => none
    | .ok none => none
    | .ok (some cell) =>
      match cell with
      | some (some p) => some p
      | some none => none
      | none => none

theorem lookupKey_dictInsert_self (m : Panel) (k : String) (v : FiscalYearMetrics) :
    lookupKey (dictInsert m k v) k = some v := by
  induction m with
  | nil => simp [dictInsert, lookupKey]
  | cons hd tl ih =>
    obtain ⟨k0, v0⟩ := hd
    by_cases h : k0 = k
    · subst h
      simp [dictInsert, lookupKey]
    · simp [dictInsert, lookupKey, h, ih]

theorem lookupKey_dictInsert_ne (m : Panel) (k : String) (v : FiscalYearMetrics)
    (k' : String) (h : k' ≠ k) :
    lookupKey (dictInsert m k v) k' = lookupKey m k' := by
  have h2 : ¬(k = k') := fun hh => h hh.symm
  induction m with
  | nil => simp [dictInsert, lookupKey, h2]
  | cons hd tl ih =>
    obtain ⟨k0, v0⟩ := hd
    by_cases h0 : k0 = k
    · subst h0
      simp [dictInsert, lookupKey, h2]
    · simp [dictInsert, lookupKey, h0, ih]

theorem dictInsert_lookup_eq (m : Panel) (k : String) (v : FiscalYearMetrics)
    (h : lookupKey m k = some v) : dictInsert m k v = m := by
  induction m with
  | nil => simp [lookupKey] at h
  | cons hd tl ih =>
    obtain ⟨k0, v0⟩ := hd
    by_cases h0 : k0 = k
    · subst h0
      simp [lookupKey] at h
      simp [dictInsert, h]
    · simp [lookupKey, h0] at h
      simp [dictInsert, h0, ih h]

theorem lookupKey_isSome_iff_mem (m : Panel) (k : String) :
    (lookupKey m k).isSome ↔ k ∈ panelKeys m := by
  induction m with
  | nil => simp [lookupKey, panelKeys]
  | cons hd tl ih =>
    obtain ⟨k0, v0⟩ := hd
    by_cases h0 : k0 = k
    · subst h0
      simp [lookupKey, panelKeys]
    · have h2 : ¬(k = k0) := fun hh => h0 hh.symm
      have e1 : lookupKey ((k0, v0) :: tl) k = lookupKey tl k := by
        simp [lookupKey, h0]
      have e2 : panelKeys ((k0, v0) :: tl) = k0 :: panelKeys tl := rfl
      rw [e1, e2, List.mem_cons, ih]
      constructor
      · exact Or.inr
      · rintro (hh | hh)
        · exact absurd hh h2
        · exact hh

theorem panelKeys_dictInsert (m : Panel) (k : String) (v : FiscalYearMetrics) :
    panelKeys (dictInsert m k v) =
      if (lookupKey m k).isSome then panelKeys m else panelKeys m ++ [k] := by
  induction m with
  | nil => simp [dictInsert, lookupKey, panelKeys]
  | cons hd tl ih =>
    obtain ⟨k0, v0⟩ := hd
    by_cases h0 : k0 = k
    · subst h0
      simp [dictInsert, lookupKey, panelKeys]
    · have e1 : dictInsert ((k0, v0) :: tl) k v = (k0, v0) :: dictInsert tl k v := by
        simp [dictInsert, h0]
      have e2 : lookupKey ((k0, v0) :: tl) k = lookupKey tl k := by
        simp [lookupKey, h0]
      have e3 : panelKeys ((k0, v0) :: dictInsert tl k v) =
          k0 :: panelKeys (dictInsert tl k v) := rfl
      rw [e1, e2, e3, ih]
      by_cases h1 : (lookupKey tl k).isSome
      · rw [if_pos h1, if_pos h1]
        rfl
      · rw [if_neg h1, if_neg h1]
        rfl

theorem length_dictInsert (m : Panel) (k : String) (v : FiscalYearMetrics) :
    (dictInsert m k v).length =
      if (lookupKey m k).isSome then m.length else m.length + 1 := by
  have h := congrArg List.length (panelKeys_dictInsert m k v)
  by_cases h1 : (lookupKey m k).isSome
  · rw [if_pos h1] at h ⊢
    simpa [panelKeys] using h
  · rw [if_neg h1] at h ⊢
    simpa [panelKeys] using h

theorem panelKeys_nodup_dictInsert (m : Panel) (k : String) (v : FiscalYearMetrics)
    (h : (panelKeys m).Nodup) : (panelKeys (dictInsert m k v)).Nodup := by
  rw [panelKeys_dictInsert]
  by_cases h1 : (lookupKey m k).isSome
  · rw [if_pos h1]
    exact h
  · have hk : k ∉ panelKeys m := fun hm =>
      h1 ((lookupKey_isSome_iff_mem m k).mpr hm)
    rw [if_neg h1]
    simp [List.nodup_append, h, hk]

/-- Building a dict by successive assignment starting from `acc`. -/
def toDictFrom (acc : Panel) (l : List (String × FiscalYearMetrics)) : Panel :=
  l.foldl (fun a kv => dictInsert a kv.1 kv.2) acc

theorem toDict_eq_toDictFrom (l : List (String × FiscalYearMetrics)) :
    toDict l = toDictFrom [] l := rfl

theorem toDictFrom_append_single (acc : Panel) (l : List (String × FiscalYearMetrics))
    (k : String) (v : FiscalYearMetrics) :
    toDictFrom acc (l ++ [(k, v)]) = dictInsert (toDictFrom acc l) k v := by
  simp [toDictFrom, List.foldl_append]

theorem mem_panelKeys_toDictFrom (l : List (String × FiscalYearMetrics)) (acc : Panel)
    (k : String) :
    k ∈ panelKeys (toDictFrom acc l) ↔ k ∈ panelKeys acc ∨ k ∈ l.map Prod.fst := by
  induction l generalizing acc with
  | nil => simp [toDictFrom]
  | cons hd tl ih =>
    obtain ⟨k0, v0⟩ := hd
    have step : toDictFrom acc ((k0, v0) :: tl) = toDictFrom (dictInsert acc k0 v0) tl := rfl
    rw [step, ih, panelKeys_dictInsert]
    by_cases h1 : (lookupKey acc k0).isSome
    · have hk0 : k0 ∈ panelKeys acc := (lookupKey_isSome_iff_mem acc k0).mp h1
      rw [if_pos h1]
      simp only [List.map_cons, List.mem_cons]
      constructor
      · rintro (h2 | h2)
        · exact Or.inl h2
        · exact Or.inr (Or.inr h2)
      · rintro (h2 | h2 | h2)
        · exact Or.inl h2
        · subst h2
          exact Or.inl hk0
        · exact Or.inr h2
    · rw [if_neg h1]
      simp only [List.mem_append, List.mem_singleton, List.map_cons, List.mem_cons]
      tauto

theorem length_toDictFrom (l : List (String × FiscalYearMetrics)) (acc : Panel)
    (h : (panelKeys acc).Nodup) :
    (toDictFrom acc l).length = (panelKeys acc ++ l.map Prod.fst).toFinset.card := by
  induction l generalizing acc with
  | nil =>
    simp only [toDictFrom, List.foldl_nil, List.map_nil, List.append_nil]
    rw [List.toFinset_card_of_nodup h]
    simp [panelKeys]
  | cons hd tl ih =>
    obtain ⟨k0, v0⟩ := hd
    have step : toDictFrom acc ((k0, v0) :: tl) = toDictFrom (dictInsert acc k0 v0) tl := rfl
    rw [step, ih _ (panelKeys_nodup_dictInsert acc k0 v0 h)]
    congr 1
    rw [panelKeys_dictInsert]
    by_cases h1 : (lookupKey acc k0).isSome
    · have hk0 : k0 ∈ panelKeys acc := (lookupKey_isSome_iff_mem acc k0).mp h1
      rw [if_pos h1]
      ext a
      simp only [List.mem_toFinset, List.mem_append, List.map_cons, List.mem_cons]
      constructor
      · rintro (h2 | h2)
        · exact Or.inl h2
        · exact Or.inr (Or.inr h2)
      · rintro (h2 | h2 | h2)
        · exact Or.inl h2
        · subst h2
          exact Or.inl hk0
        · exact Or.inr h2
    · rw [if_neg h1]
      ext a
      simp only [List.mem_toFinset, List.mem_append, List.mem_singleton, List.map_cons,
        List.mem_cons]
      tauto

theorem rawEntries_keysList (mc so cp : Option ℚ)
    (l : List (IncomeStmt × BalanceStmt × CashFlowStmt)) :
    (rawEntries mc so cp l).map Prod.fst =
      (l.map (fun t => yearKey t.1)).filter (fun k => k != "") := by
  induction l with
  | nil => rfl
  | cons t rest ih =>
    by_cases h : yearKey t.1 = ""
    · simp [rawEntries, h, ih]
    · simp [rawEntries, h, ih]

theorem rawEntries_concat (mc so cp : Option ℚ)
    (ts : List (IncomeStmt × BalanceStmt × CashFlowStmt))
    (t : IncomeStmt × BalanceStmt × CashFlowStmt) (h : yearKey t.1 ≠ "") :
    ∃ pre, rawEntries mc so cp (ts ++ [t]) =
      pre ++ [(yearKey t.1, yearMetrics t.1 t.2.1 t.2.2 none mc so cp)] := by
  induction ts with
  | nil =>
    refine ⟨[], ?_⟩
    simp [rawEntries, h]
  | cons u rest ih =>
    obtain ⟨pre, hpre⟩ := ih
    by_cases hu : yearKey u.1 = ""
    · refine ⟨pre, ?_⟩
      rw [List.cons_append]
      simp [rawEntries, hu, hpre]
    · refine ⟨(yearKey u.1,
        yearMetrics u.1 u.2.1 u.2.2 (((rest ++ [t]).head?).map (·.1)) mc so cp) :: pre, ?_⟩
      rw [List.cons_append]
      simp [rawEntries, hu, hpre]

theorem mem_insertYearDesc (x a : String) (l : List String) :
    a ∈ insertYearDesc x l ↔ a = x ∨ a ∈ l := by
  induction l with
  | nil => simp [insertYearDesc]
  | cons y ys ih =>
    by_cases h : natOfYear x < natOfYear y
    · simp only [insertYearDesc, if_pos h, List.mem_cons, ih]
      tauto
    · simp only [insertYearDesc, if_neg h, List.mem_cons]

theorem mem_sortYearsDesc (a : String) (l : List String) :
    a ∈ sortYearsDesc l ↔ a ∈ l := by
  induction l with
  | nil => simp [sortYearsDesc]
  | cons x xs ih => simp [sortYearsDesc, mem_insertYearDesc, ih]

theorem updLoaded_none (st : GenSt) : updLoaded st none = st.loaded := rfl

theorem updLoaded_miss (st : GenSt) (p : String) (h : lookupKey st.results p = none) :
    updLoaded st (some p) = st.loaded := by
  simp [updLoaded, h]

theorem updLoaded_agree (st : GenSt) (p : String) (v : FiscalYearMetrics)
    (h : lookupKey st.results p = some v) (h2 : lookupKey st.loaded p = some v) :
    updLoaded st (some p) = st.loaded := by
  simp [updLoaded, h, dictInsert_lookup_eq _ _ _ h2]

theorem genStep_cached (cap : Nat → Option FiscalYearMetrics) (st : GenSt)
    (prev : Option String) (y : String) (v : FiscalYearMetrics)
    (h : lookupKey st.loaded y = some v) :
    genStep cap false st prev y = { st with results := dictInsert st.results y v } := by
  simp [genStep, h]

theorem genStep_fail (cap : Nat → Option FiscalYearMetrics) (st : GenSt)
    (prev : Option String) (y : String) (h : lookupKey st.loaded y = none)
    (hc : cap st.calls = none) :
    genStep cap false st prev y =
      { st with loaded := updLoaded st prev, calls := st.calls + 1 } := by
  simp [genStep, h, hc]

theorem genStep_gen (cap : Nat → Option FiscalYearMetrics) (st : GenSt)
    (prev : Option String) (y : String) (f : FiscalYearMetrics)
    (h : lookupKey st.loaded y = none) (hc : cap st.calls = some f) :
    genStep cap false st prev y =
      ⟨dictInsert st.store y f, dictInsert st.store y f, dictInsert st.results y f,
        st.calls + 1⟩ := by
  simp [genStep, h, hc]

theorem yearMetrics_growth_of_none (inc : IncomeStmt) (bal : BalanceStmt) (cf : CashFlowStmt)
    (mc so cp : Option ℚ) :
    (yearMetrics inc bal cf none mc so cp).revenue_growth = 0 ∧
    (yearMetrics inc bal cf none mc so cp).ebitda_growth = 0 ∧
    (yearMetrics inc bal cf none mc so cp).adj_eps_growth = 0 :=
  ⟨rfl, rfl, rfl⟩

/-- Balance sheet used by the worked examples: debt 100, cash 40, equity 200,
assets 540. -/
def balEx : BalanceStmt :=
  ⟨some 100, some 40, some 200, some 540⟩

/-- Cash-flow statement used by the worked examples: CFO 120, capex -20. -/
def cfEx : CashFlowStmt :=
  ⟨some 120, some (-20)⟩

/-- Fiscal-year 2024 income statement of the worked example. -/
def incEx2024 : IncomeStmt :=
  ⟨some "2024-12-31", some "2024", some 400, some 200, some 100, none, some 80, some 20, some 10⟩

/-- Fiscal-year 2023 income statement of the worked example. -/
def incEx2023 : IncomeStmt :=
  ⟨some "2023-12-31", some "2023", some 200, some 100, some 50, none, some 40, some 10, some 5⟩

/-- Fiscal-year 2022 income statement of the worked example. -/
def incEx2022 : IncomeStmt :=
  ⟨some "2022-12-31", some "2022", some 100, some 50, some 25, none, some 20, some 5, some 2⟩

/-- An income statement with neither a `date` nor a `calendarYear` field but
every line item populated. -/
def incExNoDate : IncomeStmt :=
  ⟨none, none, some 400, some 200, some 100, none, some 80, some 20, some 10⟩

/-- A constant metrics row used as a stub capability response. -/
def constFYM (x : ℚ) : FiscalYearMetrics :=
  ⟨x, x, x, x, x, x, x, x, x, x, x, x, x, x, none, none, none, x, x, none, none, none, none, none⟩

/-- A capability that fails on every invocation. -/
def capFailAll : Nat → Option FiscalYearMetrics :=
  fun _ => none

/-- A capability that fails on its first invocation and afterwards returns
the stub row `constFYM 7`. -/
def capFailFirst : Nat → Option FiscalYearMetrics :=
  fun n => if n = 0 then none else some (constFYM 7)

/-- A capability that always returns the stub row `constFYM 9`. -/
def capOk : Nat → Option FiscalYearMetrics :=
  fun _ => some (constFYM 9)

/-- A two-actual-year cached panel used by the orchestrator examples. -/
def panelEx : Panel :=
  [("2023", constFYM 1), ("2024", constFYM 2)]

theorem genTwo_all_cached (cap : Nat → Option FiscalYearMetrics) (S : Panel)
    (y1 y2 : String) (hne : y1 ≠ y2) (v1 v2 : FiscalYearMetrics)
    (h1 : lookupKey S y1 = some v1) (h2 : lookupKey S y2 = some v2) :
    generate_forecast_for_years cap [y1, y2] false (some S) =
      ⟨some [(y1, v1), (y2, v2)], some S, 0⟩ := by
  unfold generate_forecast_for_years
  simp only [genLoop]
  rw [genStep_cached cap ⟨S, S, [], 0⟩ none y1 v1 h1]
  rw [genStep_cached cap _ (some y1) y2 v2 h2]
  have hne2 : ¬(y1 = y2) := hne
  simp [dictInsert, hne2]

theorem genTwo_first_fails (cap : Nat → Option FiscalYearMetrics) (S : Panel)
    (y1 y2 : String) (h1 : lookupKey S y1 = none) (h2 : lookupKey S y2 = none)
    (hc0 : cap 0 = none) (g : FiscalYearMetrics) (hc1 : cap 1 = some g) :
    generate_forecast_for_years cap [y1, y2] false (some S) =
      ⟨some [(y2, g)], some (dictInsert S y2 g), 2⟩ := by
  unfold generate_forecast_for_years
  simp [genLoop, genStep, updLoaded, lookupKey, dictInsert, h1, h2, hc0, hc1]

theorem genTwo_all_fail (cap : Nat → Option FiscalYearMetrics) (S : Panel)
    (y1 y2 : String) (h1 : lookupKey S y1 = none) (h2 : lookupKey S y2 = none)
    (hc0 : cap 0 = none) (hc1 : cap 1 = none) :
    generate_forecast_for_years cap [y1, y2] false (some S) = ⟨none, some S, 2⟩ := by
  unfold generate_forecast_for_years
  simp [genLoop, genStep, updLoaded, lookupKey, dictInsert, h1, h2, hc0, hc1]

theorem pull_post_metrics_eq_core (cap : Nat → Option FiscalYearMetrics) (m : Panel)
    (l p : String) (rest : List String)
    (hsort : sortYearsDesc (panelKeys m) = l :: p :: rest) :
    pull_post_metrics cap m = pull_post_core cap m l p := by
  unfold pull_post_metrics
  rw [hsort]

/-- The three-actual-year panel (fiscal 2022-2024) derived from the worked
example statements with `marketCap`, `sharesOutstanding` and `currentPrice`
supplied — the end-to-end scenario of the spec. -/
def exMetrics3 : Panel :=
  calculate_key_metrics [incEx2024, incEx2023, incEx2022] [balEx, balEx, balEx]
    [cfEx, cfEx, cfEx] (some 1000000) (some 1000) (some 1000)

/-- An income statement whose revenue is 0 (dated, all other items present). -/
def incExZeroRev : IncomeStmt :=
  ⟨some "2024-12-31", some "2024", some 0, some 50, some 25, none, some 10, some 0, some 0⟩

/-- A company row whose nine required fields are all non-null but whose
analyst_rating_counts cell holds non-empty text that fails to decode. -/
def companyRowBadRatings : CompanyRow :=
  ⟨some 1000, some 500000, some "USD", some 1, some 50, some 10, some 100, some 30,
    some 250, some 120, some "SPX", some none, some "Buy", some 20⟩

/-- A fully populated company row (decodable rating counts). -/
def companyRowComplete : CompanyRow :=
  ⟨some 1000, some 500000, some "USD", some 1, some 50, some 10, some 100, some 30,
    some 250, some 120, some "SPX", some (some [("buy", 10)]), some "Buy", some 20⟩

/-- The same company row with `volatility_90d` null. -/
def companyRowNoVol : CompanyRow :=
  ⟨some 1000, some 500000, some "USD", some 1, some 50, some 10, some 100, none,
    some 250, some 120, some "SPX", some (some [("buy", 10)]), some "Buy", some 20⟩

/-- C3 counterexample: with marketCap absent but sharesOutstanding = 8 and
currentPrice = 5 supplied, the example year derives
adjPe = currentPrice / adjEps = 5 / (80/8) = 1/2, which is not null — so the
claim that adjPe is null whenever marketCap is absent, regardless of
currentPrice, is false on the code (`adj_pe` is guarded by `current_price`
and `adj_eps`, not by `market_cap`). -/
theorem c3_adjpe_without_marketcap_cex :
    (yearMetrics incEx2024 balEx cfEx none none (some 8) (some 5)).adj_pe = some (1 / 2) ∧
    (yearMetrics incEx2024 balEx cfEx none none (some 8) (some 5)).adj_pe ≠ none := by
  have h : (yearMetrics incEx2024 balEx cfEx none none (some 8) (some 5)).adj_pe
      = some (1 / 2) := by
    norm_num [yearMetrics, incEx2024, balEx, cfEx, qval, truthy]
  exact ⟨h, by rw [h]; exact Option.some_ne_none _⟩

/-- C3 (corrected, amended): when marketCap is not supplied (Python-falsy),
the EV-derived valuation fields evToEbitda, evToRevenue and fcffYield of
every derived year are null; adjPe is computed from currentPrice and adjEps
independently of marketCap, and is null whenever currentPrice is not
supplied. -/
theorem c3_valuation_nullability (inc : IncomeStmt) (bal : BalanceStmt) (cf : CashFlowStmt)
    (prevInc : Option IncomeStmt) (mc so cp : Option ℚ) (h : truthy mc = false) :
    (yearMetrics inc bal cf prevInc mc so cp).ev_ebitda = none ∧
    (yearMetrics inc bal cf prevInc mc so cp).ev_revenue = none ∧
    (yearMetrics inc bal cf prevInc mc so cp).fcff_yield = none ∧
    (truthy cp = false → (yearMetrics inc bal cf prevInc mc so cp).adj_pe = none) := by
  refine ⟨?_, ?_, ?_, fun h2 => ?_⟩ <;> simp [yearMetrics, h]
  simp [h2]

/-- Witness for C3 at marketCap = None, currentPrice = None. -/
theorem c3_valuation_nullability_witness :
    truthy none = false ∧
    ((yearMetrics incEx2024 balEx cfEx none none (some 8) none).ev_ebitda = none ∧
     (yearMetrics incEx2024 balEx cfEx none none (some 8) none).ev_revenue = none ∧
     (yearMetrics incEx2024 balEx cfEx none none (some 8) none).fcff_yield = none ∧
     (truthy none = false →
       (yearMetrics incEx2024 balEx cfEx none none (some 8) none).adj_pe = none)) :=
  ⟨rfl, c3_valuation_nullability incEx2024 balEx cfEx none none (some 8) none rfl⟩

/-- C6 counterexample: one aligned position whose income, balance-sheet and
cash-flow statements all exist and are fully populated, but whose income
statement has neither a `date` nor a `calendarYear` field, produces an empty
panel — the position is silently dropped, contradicting "exactly one entry
per aligned input position". -/
theorem c6_position_dropped_cex :
    calculate_key_metrics [incExNoDate] [balEx] [cfEx] none none none = [] ∧
    (calculate_key_metrics [incExNoDate] [balEx] [cfEx] none none none).length ≠ 1 := by
  constructor
  · decide
  · decide

/-- C6 (corrected, amended): the Metrics Deriver produces exactly one entry
per distinct non-empty year key among the aligned positions: every aligned
position whose income statement yields a non-empty year key (date prefix or
calendarYear fallback) is represented in the panel — fields computing to 0
never cause a drop — but a position with neither date nor calendarYear is
silently dropped, and positions sharing a year key collapse into one entry. -/
theorem c6_entry_per_distinct_year (incs : List IncomeStmt) (bals : List BalanceStmt)
    (cfs : List CashFlowStmt) (mc so cp : Option ℚ) :
    (calculate_key_metrics incs bals cfs mc so cp).length =
      (((alignStatements incs bals cfs).map (fun t => yearKey t.1)).filter
        (fun k => k != "")).toFinset.card ∧
    ∀ t ∈ alignStatements incs bals cfs, yearKey t.1 ≠ "" →
      (lookupKey (calculate_key_metrics incs bals cfs mc so cp) (yearKey t.1)).isSome := by
  constructor
  · unfold calculate_key_metrics
    rw [toDict_eq_toDictFrom, length_toDictFrom _ _ (by simp [panelKeys])]
    simp only [panelKeys, List.map_nil, List.nil_append]
    rw [rawEntries_keysList]
  · intro t ht hk
    rw [lookupKey_isSome_iff_mem]
    unfold calculate_key_metrics
    rw [toDict_eq_toDictFrom, mem_panelKeys_toDictFrom]
    refine Or.inr ?_
    rw [rawEntries_keysList]
    refine List.mem_filter.mpr ⟨List.mem_map.mpr ⟨t, ht, rfl⟩, ?_⟩
    simpa using hk

/-- Witness for C6 on the two-year worked example: two distinct year keys
give two entries, and the 2023 position is represented. -/
theorem c6_entry_per_distinct_year_witness :
    (calculate_key_metrics [incEx2024, incEx2023] [balEx, balEx] [cfEx, cfEx]
      none none none).length =
      ((([(incEx2024, balEx, cfEx), (incEx2023, balEx, cfEx)]).map
        (fun t => yearKey t.1)).filter (fun k => k != "")).toFinset.card ∧
    (lookupKey (calculate_key_metrics [incEx2024, incEx2023] [balEx, balEx] [cfEx, cfEx]
      none none none) (yearKey incEx2023)).isSome := by
  have h := c6_entry_per_distinct_year [incEx2024, incEx2023] [balEx, balEx] [cfEx, cfEx]
    none none none
  exact ⟨h.1, h.2 (incEx2023, balEx, cfEx) (by decide) (by decide)⟩

/-- C7 (confirmed): for every derived fiscal year whose raw revenue is not
strictly positive (in particular 0), the derived netMargin, ebitdaMargin and
ebitMargin are exactly 0 — the guarded computation is total and never
divides by the non-positive revenue, regardless of market inputs or the
prior-year statement. -/
theorem c7_zero_revenue_margins (inc : IncomeStmt) (bal : BalanceStmt) (cf : CashFlowStmt)
    (prevInc : Option IncomeStmt) (mc so cp : Option ℚ)
    (h : qval inc.revenue ≤ 0) :
    (yearMetrics inc bal cf prevInc mc so cp).net_margin = 0 ∧
    (yearMetrics inc bal cf prevInc mc so cp).ebitda_margin = 0 ∧
    (yearMetrics inc bal cf prevInc mc so cp).ebit_margin = 0 := by
  have hneg : ¬(qval inc.revenue > 0) := not_lt.mpr h
  refine ⟨?_, ?_, ?_⟩ <;> simp [yearMetrics, hneg]

/-- Witness for C7 at a concrete zero-revenue statement. -/
theorem c7_zero_revenue_margins_witness :
    qval incExZeroRev.revenue ≤ 0 ∧
    ((yearMetrics incExZeroRev balEx cfEx none none none none).net_margin = 0 ∧
     (yearMetrics incExZeroRev balEx cfEx none none none none).ebitda_margin = 0 ∧
     (yearMetrics incExZeroRev balEx cfEx none none none none).ebit_margin = 0) := by
  have h0 : qval incExZeroRev.revenue ≤ 0 := by norm_num [qval, incExZeroRev]
  exact ⟨h0, c7_zero_revenue_margins incExZeroRev balEx cfEx none none none none h0⟩

/-- C9 (confirmed): the most-historic aligned position of any derivation
window — the last aligned triple, which has no position i+1 — yields the
panel entry at its year key, and that entry's revenueGrowth, ebitdaGrowth
and epsGrowth are all exactly 0. -/
theorem c9_oldest_year_zero_growth (incs : List IncomeStmt) (bals : List BalanceStmt)
    (cfs : List CashFlowStmt) (mc so cp : Option ℚ)
    (ts : List (IncomeStmt × BalanceStmt × CashFlowStmt))
    (t : IncomeStmt × BalanceStmt × CashFlowStmt)
    (halign : alignStatements incs bals cfs = ts ++ [t])
    (hkey : yearKey t.1 ≠ "") :
    lookupKey (calculate_key_metrics incs bals cfs mc so cp) (yearKey t.1) =
      some (yearMetrics t.1 t.2.1 t.2.2 none mc so cp) ∧
    (yearMetrics t.1 t.2.1 t.2.2 none mc so cp).revenue_growth = 0 ∧
    (yearMetrics t.1 t.2.1 t.2.2 none mc so cp).ebitda_growth = 0 ∧
    (yearMetrics t.1 t.2.1 t.2.2 none mc so cp).adj_eps_growth = 0 := by
  obtain ⟨pre, hpre⟩ := rawEntries_concat mc so cp ts t hkey
  refine ⟨?_, rfl, rfl, rfl⟩
  unfold calculate_key_metrics
  rw [halign, hpre, toDict_eq_toDictFrom, toDictFrom_append_single]
  exact lookupKey_dictInsert_self _ _ _

/-- Witness for C9 on the two-year worked example (2023 is the oldest
aligned position). -/
theorem c9_oldest_year_zero_growth_witness :
    lookupKey (calculate_key_metrics [incEx2024, incEx2023] [balEx, balEx] [cfEx, cfEx]
        none none none) (yearKey incEx2023) =
      some (yearMetrics incEx2023 balEx cfEx none none none none) ∧
    (yearMetrics incEx2023 balEx cfEx none none none none).revenue_growth = 0 ∧
    (yearMetrics incEx2023 balEx cfEx none none none none).ebitda_growth = 0 ∧
    (yearMetrics incEx2023 balEx cfEx none none none none).adj_eps_growth = 0 :=
  c9_oldest_year_zero_growth [incEx2024, incEx2023] [balEx, balEx] [cfEx, cfEx]
    none none none [(incEx2024, balEx, cfEx)] (incEx2023, balEx, cfEx) rfl (by decide)

/-- C8 counterexample: a row whose nine required fields are all non-null is
nevertheless rejected by the completeness check, because building the result
dict runs `json.loads` on the non-required analyst_rating_counts text and the
decode error is swallowed by the blanket except-handler into a `None`
return — so "succeeds iff all nine required fields are non-null" is false on
the code. -/
theorem c8_required_fields_iff_cex :
    companyRequiredOk companyRowBadRatings = true ∧
    check_company_data_cache true (.ok (some companyRowBadRatings)) = none := by
  constructor
  · decide
  · decide

/-- C8 (corrected, amended): on an existing database whose query returns a
row, the completeness check succeeds iff the nine required fields (shares
outstanding, market cap, currency, free float, 3M volume in shares and in
currency, 90-day volatility, 52w high, 52w low) are all non-null AND the
analyst-rating-counts text, when non-empty, decodes as JSON; in particular a
record whose volatility_90d is missing is judged incomplete.  The check is a
pure function of the queried row — a read with no store effect. -/
theorem c8_completeness_gate (row : CompanyRow) :
    ((check_company_data_cache true (.ok (some row))).isSome ↔
      (companyRequiredOk row = true ∧ row.analyst_rating_counts ≠ some none)) ∧
    (row.volatility_90d = none → check_company_data_cache true (.ok (some row)) = none) := by
  constructor
  · by_cases hreq : companyRequiredOk row
    · rcases hrc : row.analyst_rating_counts with _ | rc
      · simp [check_company_data_cache, hreq, hrc]
      · rcases rc with _ | rcv
        · simp [check_company_data_cache, hreq, hrc]
        · simp [check_company_data_cache, hreq, hrc]
    · simp [check_company_data_cache, hreq]
  · intro hv
    have hreq : companyRequiredOk row = false := by
      simp [companyRequiredOk, hv]
    simp [check_company_data_cache, hreq]

/-- Witness for C8: the fully populated row is judged complete, and the
row with a null volatility_90d is judged incomplete. -/
theorem c8_completeness_gate_witness :
    (check_company_data_cache true (.ok (some companyRowComplete))).isSome = true ∧
    check_company_data_cache true (.ok (some companyRowNoVol)) = none := by
  constructor
  · exact ((c8_completeness_gate companyRowComplete).1).mpr ⟨by decide, by decide⟩
  · exact (c8_completeness_gate companyRowNoVol).2 rfl

/-- C10 (confirmed): every cache completeness check is a total function of
its read inputs (no write is modelled because none occurs): a missing
database file, a database error, an absent row, an empty cell, malformed
JSON, or an empty decoded series all yield None — the caller falls through
to the fetch-and-derive path — rather than an exception. -/
theorem c10_cache_checks_total :
    (∀ q, check_price_performance_cache false q = none) ∧
    check_price_performance_cache true (.error ()) = none ∧
    check_price_performance_cache true (.ok none) = none ∧
    (∀ row : PricePerfRow, row.stock_data = none →
      check_price_performance_cache true (.ok (some row)) = none) ∧
    (∀ row : PricePerfRow, row.stock_data = some none →
      check_price_performance_cache true (.ok (some row)) = none) ∧
    (∀ row : PricePerfRow, row.stock_data = some (some []) →
      check_price_performance_cache true (.ok (some row)) = none) ∧
    (∀ q, check_company_data_cache false q = none) ∧
    check_company_data_cache true (.error ()) = none ∧
    check_company_data_cache true (.ok none) = none ∧
    (∀ q, check_key_metrics_cache false q = none) ∧
    check_key_metrics_cache true (.error ()) = none ∧
    check_key_metrics_cache true (.ok none) = none ∧
    check_key_metrics_cache true (.ok (some none)) = none ∧
    check_key_metrics_cache true (.ok (some (some none))) = none := by
  refine ⟨fun q => ?_, ?_, ?_, fun row h => ?_, fun row h => ?_, fun row h => ?_,
    fun q => ?_, ?_, ?_, fun q => ?_, ?_, ?_, ?_, ?_⟩
  · simp [check_price_performance_cache]
  · simp [check_price_performance_cache]
  · simp [check_price_performance_cache]
  · rcases hi : row.index_data with _ | i
    · simp [check_price_performance_cache, h, hi]
    · rcases i with _ | iv
      · simp [check_price_performance_cache, h, hi]
      · simp [check_price_performance_cache, h, hi]
  · rcases hi : row.index_data with _ | i
    · simp [check_price_performance_cache, h, hi]
    · rcases i with _ | iv
      · simp [check_price_performance_cache, h, hi]
      · simp [check_price_performance_cache, h, hi]
  · rcases hi : row.index_data with _ | i
    · simp [check_price_performance_cache, h, hi]
    · rcases i with _ | iv
      · simp [check_price_performance_cache, h, hi]
      · simp [check_price_performance_cache, h, hi]
  · simp [check_company_data_cache]
  · simp [check_company_data_cache]
  · simp [check_company_data_cache]
  · simp [check_key_metrics_cache]
  · simp [check_key_metrics_cache]
  · simp [check_key_metrics_cache]
  · simp [check_key_metrics_cache]
  · simp [check_key_metrics_cache]

/-- Witness for C10 at concrete anomaly inputs for each of the three
checks. -/
theorem c10_cache_checks_total_witness :
    check_price_performance_cache false (.ok none) = none ∧
    check_price_performance_cache true (.ok (some ⟨some none, some (some [])⟩)) = none ∧
    check_company_data_cache false (.ok none) = none ∧
    check_key_metrics_cache false (.ok none) = none ∧
    check_key_metrics_cache true (.ok (some (some none))) = none := by
  obtain ⟨h1, _, _, _, h5, _, h7, _, _, h10, _, _, h13, _⟩ := c10_cache_checks_total
  exact ⟨h1 _, h5 _ rfl, h7 _, h10 _, h13⟩

/-- C1 counterexample: with a capability that fails for the first requested
forecast year (2025) and succeeds for the second (2026), the end-to-end
pipeline returns a panel that contains 2026 but has NO entry at all for
2025 — the deterministic fallback is skipped for the failed year, so the
returned panel does not contain a value for every requested forecast year. -/
theorem c1_fallback_skipped_cex :
    (pull_post_metrics capFailFirst exMetrics3).ret.isSome = true ∧
    lookupKey ((pull_post_metrics capFailFirst exMetrics3).ret.getD []) "2025" = none ∧
    lookupKey ((pull_post_metrics capFailFirst exMetrics3).ret.getD []) "2026" =
      some (constFYM 7) := by
  refine ⟨by decide, by decide, ?_⟩
  rfl

/-- C1 (corrected, amended): a per-year capability failure does not abort
the remaining years — the later year is still attempted and, on success,
included — but no fallback is substituted for the failed year when another
requested year succeeds: the failed year is simply absent from the returned
panel.  (The carry-forward fallback runs only when the capability returns
nothing for every requested year or the forecast call raises; see C4.) -/
theorem c1_per_year_failure_skips (cap : Nat → Option FiscalYearMetrics) (m : Panel)
    (l p : String) (rest : List String) (g : FiscalYearMetrics)
    (hsort : sortYearsDesc (panelKeys m) = l :: p :: rest) (hlp : l ≠ p)
    (h1l : yearString (natOfYear l + 1) ≠ l) (h1p : yearString (natOfYear l + 1) ≠ p)
    (h2l : yearString (natOfYear l + 2) ≠ l) (h2p : yearString (natOfYear l + 2) ≠ p)
    (h12 : yearString (natOfYear l + 1) ≠ yearString (natOfYear l + 2))
    (hc0 : cap 0 = none) (hc1 : cap 1 = some g) :
    (pull_post_metrics cap m).ret.isSome = true ∧
    lookupKey ((pull_post_metrics cap m).ret.getD []) (yearString (natOfYear l + 1)) = none ∧
    lookupKey ((pull_post_metrics cap m).ret.getD []) (yearString (natOfYear l + 2)) = some g ∧
    (pull_post_metrics cap m).calls = 2 := by
  rw [pull_post_metrics_eq_core cap m l p rest hsort]
  have hpl : ¬(p = l) := fun hh => hlp hh.symm
  have hp1 : ¬(p = yearString (natOfYear l + 1)) := fun hh => h1p hh.symm
  have hl1 : ¬(l = yearString (natOfYear l + 1)) := fun hh => h1l hh.symm
  have hp2 : ¬(p = yearString (natOfYear l + 2)) := fun hh => h2p hh.symm
  have hl2 : ¬(l = yearString (natOfYear l + 2)) := fun hh => h2l hh.symm
  have h21 : ¬(yearString (natOfYear l + 2) = yearString (natOfYear l + 1)) :=
    fun hh => h12 hh.symm
  have h12n : ¬(yearString (natOfYear l + 1) = yearString (natOfYear l + 2)) := h12
  unfold pull_post_core
  simp only [dictInsert, hpl, ite_false, if_false]
  have hr1 : lookupKey [(p, (lookupKey m p).getD default), (l, (lookupKey m l).getD default)]
      (yearString (natOfYear l + 1)) = none := by
    simp [lookupKey, hp1, hl1]
  have hr2 : lookupKey [(p, (lookupKey m p).getD default), (l, (lookupKey m l).getD default)]
      (yearString (natOfYear l + 2)) = none := by
    simp [lookupKey, hp2, hl2]
  rw [genTwo_first_fails cap _ _ _ hr1 hr2 hc0 g hc1]
  simp [lookupKey, dictInsert, h12n, h21, hp1, hl1, hp2, hl2]

/-- Witness for C1 on the worked three-year example with the
fails-then-succeeds capability. -/
theorem c1_per_year_failure_skips_witness :
    (pull_post_metrics capFailFirst exMetrics3).ret.isSome = true ∧
    lookupKey ((pull_post_metrics capFailFirst exMetrics3).ret.getD [])
      (yearString (natOfYear "2024" + 1)) = none ∧
    lookupKey ((pull_post_metrics capFailFirst exMetrics3).ret.getD [])
      (yearString (natOfYear "2024" + 2)) = some (constFYM 7) ∧
    (pull_post_metrics capFailFirst exMetrics3).calls = 2 :=
  c1_per_year_failure_skips capFailFirst exMetrics3 "2024" "2023" ["2022"] (constFYM 7)
    (by decide) (by decide) (by decide) (by decide) (by decide) (by decide) (by decide)
    rfl rfl

/-- C2 counterexample: the worked end-to-end scenario derives three actual
years (2022, 2023, 2024) from the fetched statements, yet the persisted
panel — both the actuals-only first save and the final store — has no entry
for 2022: only the two most recent actual years are stored, not the full
run of three. -/
theorem c2_oldest_actual_dropped_cex :
    (lookupKey exMetrics3 "2022").isSome = true ∧
    (pull_post_metrics capFailAll exMetrics3).firstSave.map panelKeys =
      some ["2023", "2024"] ∧
    lookupKey ((pull_post_metrics capFailAll exMetrics3).store.getD []) "2022" = none ∧
    lookupKey ((pull_post_metrics capFailAll exMetrics3).ret.getD []) "2022" = none := by
  refine ⟨by decide, by decide, by decide, by decide⟩

/-- C2 (corrected, amended): on the first successful statement fetch the
persisted MetricsPanel contains exactly the TWO most recent actual years
(previous then latest, in that insertion order) — not the full run of actual
years derived from the statements; any older derived years are dropped from
the stored panel.  At least 2 actual years are still required (with fewer,
nothing is persisted). -/
theorem c2_two_most_recent_actuals_persisted (cap : Nat → Option FiscalYearMetrics)
    (m : Panel) (l p : String) (rest : List String)
    (hsort : sortYearsDesc (panelKeys m) = l :: p :: rest) (hlp : l ≠ p) :
    (pull_post_metrics cap m).firstSave =
      some [(p, (lookupKey m p).getD default), (l, (lookupKey m l).getD default)] ∧
    ((pull_post_metrics cap m).firstSave.getD []).length = 2 := by
  rw [pull_post_metrics_eq_core cap m l p rest hsort]
  have hpl : ¬(p = l) := fun hh => hlp hh.symm
  unfold pull_post_core
  simp only [dictInsert, hpl, ite_false, if_false]
  rcases hg : (generate_forecast_for_years cap
      [yearString (natOfYear l + 1), yearString (natOfYear l + 2)] false
      (some [(p, (lookupKey m p).getD default), (l, (lookupKey m l).getD default)])).results
    with _ | f <;> simp [hg]

/-- Witness for C2 on the worked three-year example. -/
theorem c2_two_most_recent_actuals_persisted_witness :
    (pull_post_metrics capFailAll exMetrics3).firstSave =
      some [("2023", (lookupKey exMetrics3 "2023").getD default),
            ("2024", (lookupKey exMetrics3 "2024").getD default)] ∧
    ((pull_post_metrics capFailAll exMetrics3).firstSave.getD []).length = 2 :=
  c2_two_most_recent_actuals_persisted capFailAll exMetrics3 "2024" "2023" ["2022"]
    (by decide) (by decide)

/-- C4 counterexample: when the capability fails for every requested year,
the fallback forecast for 2025 carries the latest actual year's
revenue-growth figure (100%) forward instead of setting it to 0 — the
growth-rate fields of the fallback years are not zeroed whenever
previous-year metrics exist. -/
theorem c4_fallback_growth_not_zero_cex :
    (lookupKey ((pull_post_metrics capFailAll exMetrics3).ret.getD []) "2025").map
      (fun f => f.revenue_growth) = some 100 ∧
    (lookupKey ((pull_post_metrics capFailAll exMetrics3).ret.getD []) "2025").map
      (fun f => f.revenue_growth) ≠ some 0 := by
  have h : lookupKey ((pull_post_metrics capFailAll exMetrics3).ret.getD []) "2025" =
      some (forecast_next_fiscal_year
        (yearMetrics incEx2024 balEx cfEx (some incEx2023)
          (some 1000000) (some 1000) (some 1000))
        (some (yearMetrics incEx2023 balEx cfEx (some incEx2022)
          (some 1000000) (some 1000) (some 1000)))) := rfl
  have h2 : (forecast_next_fiscal_year
      (yearMetrics incEx2024 balEx cfEx (some incEx2023)
        (some 1000000) (some 1000) (some 1000))
      (some (yearMetrics incEx2023 balEx cfEx (some incEx2022)
        (some 1000000) (some 1000) (some 1000)))).revenue_growth = 100 := by
    simp only [forecast_next_fiscal_year, Option.isSome_some, if_true]
    norm_num [yearMetrics, incEx2024, incEx2023, qval, truthy]
  rw [h]
  constructor
  · simp [h2]
  · have h3 : (100 : ℚ) ≠ 0 := by norm_num
    simp [h2, h3]

/-- C4 (corrected, amended): if the forecast capability fails for every
requested year, the pipeline still returns exactly 2 forecast years labelled
latestActual+1 and latestActual+2 on top of the 2 stored actual years, each
equal to the latest actual year's absolute values and margins carried
forward unchanged — but the growth-rate fields (revenue growth, EBITDA
growth, EPS growth) are also carried forward from the latest actual year
rather than set to 0 (they are zeroed only when no previous-year metrics
exist, which cannot happen on this ≥2-actual-year path). -/
theorem c4_all_fail_fallback (cap : Nat → Option FiscalYearMetrics) (m : Panel)
    (l p : String) (rest : List String)
    (hsort : sortYearsDesc (panelKeys m) = l :: p :: rest) (hlp : l ≠ p)
    (h1l : yearString (natOfYear l + 1) ≠ l) (h1p : yearString (natOfYear l + 1) ≠ p)
    (h2l : yearString (natOfYear l + 2) ≠ l) (h2p : yearString (natOfYear l + 2) ≠ p)
    (h12 : yearString (natOfYear l + 1) ≠ yearString (natOfYear l + 2))
    (hc0 : cap 0 = none) (hc1 : cap 1 = none) :
    ((pull_post_metrics cap m).ret.isSome = true ∧
     lookupKey ((pull_post_metrics cap m).ret.getD []) (yearString (natOfYear l + 1)) =
       some (forecast_next_fiscal_year ((lookupKey m l).getD default) (lookupKey m p)) ∧
     lookupKey ((pull_post_metrics cap m).ret.getD []) (yearString (natOfYear l + 2)) =
       some (forecast_next_fiscal_year
         (forecast_next_fiscal_year ((lookupKey m l).getD default) (lookupKey m p))
         (some ((lookupKey m l).getD default))) ∧
     ((pull_post_metrics cap m).ret.getD []).length = 4 ∧
     (pull_post_metrics cap m).calls = 2) ∧
    ((forecast_next_fiscal_year ((lookupKey m l).getD default)
        (lookupKey m p)).revenue = ((lookupKey m l).getD default).revenue ∧
     (forecast_next_fiscal_year ((lookupKey m l).getD default)
        (lookupKey m p)).adj_ebitda = ((lookupKey m l).getD default).adj_ebitda ∧
     (forecast_next_fiscal_year ((lookupKey m l).getD default)
        (lookupKey m p)).adj_eps = ((lookupKey m l).getD default).adj_eps ∧
     (forecast_next_fiscal_year ((lookupKey m l).getD default)
        (lookupKey m p)).net_margin = ((lookupKey m l).getD default).net_margin ∧
     (forecast_next_fiscal_year ((lookupKey m l).getD default)
        (lookupKey m p)).ebitda_margin = ((lookupKey m l).getD default).ebitda_margin ∧
     (forecast_next_fiscal_year ((lookupKey m l).getD default)
        (lookupKey m p)).ebit_margin = ((lookupKey m l).getD default).ebit_margin ∧
     (forecast_next_fiscal_year ((lookupKey m l).getD default)
        (lookupKey m p)).revenue_growth = ((lookupKey m l).getD default).revenue_growth ∧
     (forecast_next_fiscal_year ((lookupKey m l).getD default)
        (lookupKey m p)).ebitda_growth = ((lookupKey m l).getD default).ebitda_growth ∧
     (forecast_next_fiscal_year ((lookupKey m l).getD default)
        (lookupKey m p)).adj_eps_growth = ((lookupKey m l).getD default).adj_eps_growth) ∧
    ((forecast_next_fiscal_year
        (forecast_next_fiscal_year ((lookupKey m l).getD default) (lookupKey m p))
        (some ((lookupKey m l).getD default))).revenue =
          ((lookupKey m l).getD default).revenue ∧
     (forecast_next_fiscal_year
        (forecast_next_fiscal_year ((lookupKey m l).getD default) (lookupKey m p))
        (some ((lookupKey m l).getD default))).net_margin =
          ((lookupKey m l).getD default).net_margin ∧
     (forecast_next_fiscal_year
        (forecast_next_fiscal_year ((lookupKey m l).getD default) (lookupKey m p))
        (some ((lookupKey m l).getD default))).revenue_growth =
          ((lookupKey m l).getD default).revenue_growth ∧
     (forecast_next_fiscal_year
        (forecast_next_fiscal_year ((lookupKey m l).getD default) (lookupKey m p))
        (some ((lookupKey m l).getD default))).ebitda_growth =
          ((lookupKey m l).getD default).ebitda_growth ∧
     (forecast_next_fiscal_year
        (forecast_next_fiscal_year ((lookupKey m l).getD default) (lookupKey m p))
        (some ((lookupKey m l).getD default))).adj_eps_growth =
          ((lookupKey m l).getD default).adj_eps_growth) := by
  have hpmem : p ∈ panelKeys m := by
    have hmem : p ∈ sortYearsDesc (panelKeys m) := by
      rw [hsort]
      simp
    exact (mem_sortYearsDesc p (panelKeys m)).mp hmem
  have hps : (lookupKey m p).isSome := (lookupKey_isSome_iff_mem m p).mpr hpmem
  refine ⟨?_, ?_, ?_⟩
  · rw [pull_post_metrics_eq_core cap m l p rest hsort]
    have hpl : ¬(p = l) := fun hh => hlp hh.symm
    have hp1 : ¬(p = yearString (natOfYear l + 1)) := fun hh => h1p hh.symm
    have hl1 : ¬(l = yearString (natOfYear l + 1)) := fun hh => h1l hh.symm
    have hp2 : ¬(p = yearString (natOfYear l + 2)) := fun hh => h2p hh.symm
    have hl2 : ¬(l = yearString (natOfYear l + 2)) := fun hh => h2l hh.symm
    have h21 : ¬(yearString (natOfYear l + 2) = yearString (natOfYear l + 1)) :=
      fun hh => h12 hh.symm
    have h12n : ¬(yearString (natOfYear l + 1) = yearString (natOfYear l + 2)) := h12
    unfold pull_post_core
    simp only [dictInsert, hpl, ite_false, if_false]
    have hr1 : lookupKey [(p, (lookupKey m p).getD default), (l, (lookupKey m l).getD default)]
        (yearString (natOfYear l + 1)) = none := by
      simp [lookupKey, hp1, hl1]
    have hr2 : lookupKey [(p, (lookupKey m p).getD default), (l, (lookupKey m l).getD default)]
        (yearString (natOfYear l + 2)) = none := by
      simp [lookupKey, hp2, hl2]
    rw [genTwo_all_fail cap _ _ _ hr1 hr2 hc0 hc1]
    simp [lookupKey, dictInsert, h12n, h21, hp1, hl1, hp2, hl2]
  · refine ⟨rfl, rfl, rfl, rfl, rfl, rfl, ?_, ?_, ?_⟩ <;>
      simp [forecast_next_fiscal_year, hps]
  · refine ⟨?_, ?_, ?_, ?_, ?_⟩ <;> simp [forecast_next_fiscal_year, hps]

/-- Witness for C4 on the worked three-year example with the always-failing
capability: the returned-panel facts of the amended claim at concrete
inputs. -/
theorem c4_all_fail_fallback_witness :
    (pull_post_metrics capFailAll exMetrics3).ret.isSome = true ∧
    ((pull_post_metrics capFailAll exMetrics3).ret.getD []).length = 4 ∧
    (pull_post_metrics capFailAll exMetrics3).calls = 2 ∧
    (forecast_next_fiscal_year ((lookupKey exMetrics3 "2024").getD default)
      (lookupKey exMetrics3 "2023")).revenue_growth =
        ((lookupKey exMetrics3 "2024").getD default).revenue_growth := by
  have h := c4_all_fail_fallback capFailAll exMetrics3 "2024" "2023" ["2022"]
    (by decide) (by decide) (by decide) (by decide) (by decide) (by decide) (by decide)
    rfl rfl
  exact ⟨h.1.1, h.1.2.2.2.1, h.1.2.2.2.2, h.2.1.2.2.2.2.2.2.1⟩

set_option maxHeartbeats 1000000 in
/-- C5 (confirmed): forecast generation is idempotent — if a run of
`generate_forecast_for_years` (with forceRegenerate false) resolved both
target years, then running it again on the resulting cache accepts every
target year from the cached panel as-is, performs zero capability calls
(the result does not even depend on the second run's capability), leaves
the cache unchanged, and returns a result identical to the first run's. -/
theorem c5_forecast_idempotent (cap cap2 : Nat → Option FiscalYearMetrics)
    (P : Panel) (y1 y2 : String) (hne : y1 ≠ y2)
    (r1 S1 : Panel) (n1 : Nat)
    (hrun : generate_forecast_for_years cap [y1, y2] false (some P) = ⟨some r1, some S1, n1⟩)
    (h1 : (lookupKey r1 y1).isSome) (h2 : (lookupKey r1 y2).isSome) :
    generate_forecast_for_years cap2 [y1, y2] false (some S1) = ⟨some r1, some S1, 0⟩ := by
  have hne2 : ¬(y1 = y2) := hne
  have hne2s : ¬(y2 = y1) := fun hh => hne hh.symm
  unfold generate_forecast_for_years at hrun
  simp only [genLoop] at hrun
  rcases hP1 : lookupKey P y1 with _ | v1
  · -- y1 not in the cached panel
    rcases hcap0 : cap 0 with _ | f1
    · -- capability fails for y1: r1 cannot contain y1, contradicting h1
      rcases hP2 : lookupKey P y2 with _ | v2
      · rcases hcap1 : cap 1 with _ | f2
        · simp [genStep, updLoaded, lookupKey, dictInsert, hP1, hP2, hcap0, hcap1] at hrun
        · simp [genStep, updLoaded, lookupKey, dictInsert, hP1, hP2, hcap0, hcap1] at hrun
          obtain ⟨hr, hS, hn⟩ := hrun
          rw [← hr] at h1
          simp [lookupKey, hne2s] at h1
      · simp [genStep, updLoaded, lookupKey, dictInsert, hP1, hP2, hcap0] at hrun
        obtain ⟨hr, hS, hn⟩ := hrun
        rw [← hr] at h1
        simp [lookupKey, hne2s] at h1
    · -- capability generates y1
      have hlook : lookupKey (dictInsert P y1 f1) y2 = lookupKey P y2 :=
        lookupKey_dictInsert_ne P y1 f1 y2 hne2s
      rcases hP2 : lookupKey P y2 with _ | v2
      · rcases hcap1 : cap 1 with _ | f2
        · -- y2 fails: r1 lacks y2, contradicting h2
          simp [genStep, updLoaded, lookupKey, dictInsert, hP1, hP2, hcap0, hcap1, hlook,
            hne2] at hrun
          obtain ⟨hr, hS, hn⟩ := hrun
          rw [← hr] at h2
          simp [lookupKey, hne2] at h2
        · -- y2 generated as well
          simp [genStep, updLoaded, lookupKey, dictInsert, hP1, hP2, hcap0, hcap1, hlook,
            hne2] at hrun
          obtain ⟨hr, hS, hn⟩ := hrun
          subst hr
          subst hS
          exact genTwo_all_cached cap2 _ y1 y2 hne f1 f2
            (by rw [lookupKey_dictInsert_ne _ _ _ _ hne]
                exact lookupKey_dictInsert_self _ _ _)
            (lookupKey_dictInsert_self _ _ _)
      · -- y2 cached
        simp [genStep, updLoaded, lookupKey, dictInsert, hP1, hP2, hcap0, hlook, hne2] at hrun
        obtain ⟨hr, hS, hn⟩ := hrun
        subst hr
        subst hS
        exact genTwo_all_cached cap2 _ y1 y2 hne f1 v2
          (lookupKey_dictInsert_self _ _ _)
          (by rw [hlook]; exact hP2)
  · -- y1 cached
    rcases hP2 : lookupKey P y2 with _ | v2
    · rcases hcap0 : cap 0 with _ | f2
      · -- y2 fails: contradiction with h2
        simp [genStep, updLoaded, lookupKey, dictInsert, hP1, hP2, hcap0, hne2] at hrun
        obtain ⟨hr, hS, hn⟩ := hrun
        rw [← hr] at h2
        simp [lookupKey, hne2] at h2
      · -- y2 generated
        simp [genStep, updLoaded, lookupKey, dictInsert, hP1, hP2, hcap0, hne2] at hrun
        obtain ⟨hr, hS, hn⟩ := hrun
        subst hr
        subst hS
        exact genTwo_all_cached cap2 _ y1 y2 hne v1 f2
          (by rw [lookupKey_dictInsert_ne _ _ _ _ hne]; exact hP1)
          (lookupKey_dictInsert_self _ _ _)
    · -- both cached
      simp [genStep, updLoaded, lookupKey, dictInsert, hP1, hP2, hne2] at hrun
      obtain ⟨hr, hS, hn⟩ := hrun
      subst hr
      subst hS
      exact genTwo_all_cached cap2 _ y1 y2 hne v1 v2 hP1 hP2

/-- Witness for C5: a first run that generates both 2025 and 2026 via the
stub capability, then the second run returning the identical result with
zero capability calls. -/
theorem c5_forecast_idempotent_witness :
    generate_forecast_for_years capOk ["2025", "2026"] false
      (some (dictInsert (dictInsert panelEx "2025" (constFYM 9)) "2026" (constFYM 9))) =
    ⟨some [("2025", constFYM 9), ("2026", constFYM 9)],
     some (dictInsert (dictInsert panelEx "2025" (constFYM 9)) "2026" (constFYM 9)), 0⟩ :=
  c5_forecast_idempotent capOk capOk panelEx "2025" "2026" (by decide)
    [("2025", constFYM 9), ("2026", constFYM 9)]
    (dictInsert (dictInsert panelEx "2025" (constFYM 9)) "2026" (constFYM 9)) 2
    rfl (by rfl) (by rfl)
